import Mathlib

/-!
Verification development for the superinvestor stock-screening dashboard.

The Python sources are shallowly embedded over exact rational arithmetic:
a Python float slot that can hold NaN (the code's absent-data sentinel) or
be missing/None is modelled as `Option ℚ`, with `none` standing for
NaN/None/absent and `some x` for a finite numeric value.  Network reads
(yfinance tickers, FX quotes) are modelled as fields of an input record,
since the derivation code is a pure function of what those reads return.
-/

namespace Superinvestor

/-- Nullable numeric value: `none` models Python NaN/None/absent. -/
abbrev Val := Option ℚ

/-- Key normalization used by `_coalesce_key` in src/metrics.py:
`re.sub(r"[^a-z0-9]+", "", str(s).lower())` — lowercase, then keep only
ASCII letters and digits. -/
def normKey (s : String) : String :=
  String.mk ((s.data.map Char.toLower).filter Char.isAlphanum)

/-- Embedding of `_coalesce_key` (src/metrics.py lines 10-19): try each
candidate label in order against the index, matching after normalization;
the first raw key matching a candidate wins, else `none`. -/
def coalesce_key (index : List String) (cands : List String) : Option String :=
  cands.findSome? (fun c => index.find? (fun raw => normKey raw == normKey c))

/-- One row of a quarterly statement DataFrame: a line-item label and its
per-quarter values, most recent quarter first (yfinance column order). -/
structure Row where
  label : String
  values : List Val

/-- A quarterly statement table (`pd.DataFrame` indexed by label). -/
abbrev Table := List Row

/-- The index of the DataFrame (list of row labels). -/
def tableLabels (t : Table) : List String := t.map Row.label

/-- Row access `qdf.loc[lab]` for a label known to be in the index. -/
def rowFor (t : Table) (lab : String) : Option (List Val) :=
  (t.find? (fun r => r.label == lab)).map Row.values

/-- Embedding of `_ttm_sum` (src/metrics.py lines 31-37): empty table or
unresolved label gives NaN; otherwise the row is `dropna`d and the first
four remaining values (`s.iloc[:4]`) are summed; an all-null row gives
NaN. -/
def ttm_sum (t : Table) (ls : List String) : Val :=
  if t.isEmpty then none
  else
    match coalesce_key (tableLabels t) ls with
    | none => none
    | some lab =>
      match rowFor t lab with
      | none => none
      | some vs =>
        let s := vs.filterMap id
        if s.isEmpty then none else some ((s.take 4).sum)

/-- Embedding of `_mrq_value` (src/metrics.py lines 39-45): like
`_ttm_sum` but takes `s.iloc[0]`, the first value remaining after
`dropna`. -/
def mrq_value (t : Table) (ls : List String) : Val :=
  if t.isEmpty then none
  else
    match coalesce_key (tableLabels t) ls with
    | none => none
    | some lab =>
      match rowFor t lab with
      | none => none
      | some vs =>
        let s := vs.filterMap id
        if s.isEmpty then none else s.head?

/-- Embedding of `_safe_div` (src/metrics.py lines 47-52): NaN when the
denominator is zero, NaN or None; NaN when the numerator is NaN/None
(`float(n)/float(d)` propagates NaN and raises on None, caught by the
`except`); otherwise the exact quotient. -/
def safe_div (n d : Val) : Val :=
  match d with
  | none => none
  | some y => if y = 0 then none else n.map (fun x => x / y)

/-- Embedding of `_safe_div` in src/core/metrics.py (lines 7-14): the
denominator check is `b in (0, None) or np.isnan(b)`; the numerator
behaves as in the other variant.  On `Val` inputs this is the same
function. -/
def core_safe_div (a b : Val) : Val :=
  match b with
  | none => none
  | some y => if y = 0 then none else a.map (fun x => x / y)

/-- Embedding of `_conv` (src/metrics.py lines 176-180): multiply by the
FX rate, propagating NaN. -/
def conv (x : Val) (fx : ℚ) : Val := x.map (fun v => v * fx)

/-- The data `fetch_core_financials` reads for one ticker.  The quarterly
statements are the DataFrames returned by `_get_df`; `market_cap` is the
result of the `_market_cap_robust` lookup chain; `info_enterprise_value`
is `info.get("enterpriseValue")`; `fx` is the `_fx_rate` result (a plain
number, defaulting to 1.0 on any FX failure). -/
structure RawSnapshot where
  q_is : Table
  q_bs : Table
  q_cf : Table
  market_cap : Val
  info_enterprise_value : Val
  fx : ℚ

/-- TTM revenue in financial currency (src/metrics.py line 199). -/
def revenue_ttm_fc (raw : RawSnapshot) : Val :=
  ttm_sum raw.q_is ["Total Revenue", "Revenue", "TotalRevenue"]

/-- TTM EBIT before backfill (src/metrics.py line 200). -/
def ebit_ttm_fc0 (raw : RawSnapshot) : Val :=
  ttm_sum raw.q_is ["EBIT", "Ebit", "Operating Income", "OperatingIncome"]

/-- TTM depreciation (src/metrics.py line 201). -/
def dep_ttm_fc (raw : RawSnapshot) : Val :=
  ttm_sum raw.q_is
    ["Depreciation And Amortization", "Depreciation",
     "Depreciation & Amortization", "Reconciled Depreciation"]

/-- TTM EBITDA before backfill (src/metrics.py line 202). -/
def ebitda_ttm_fc0 (raw : RawSnapshot) : Val :=
  ttm_sum raw.q_is ["EBITDA", "Ebitda", "EBITDA (ttm)"]

/-- EBIT after the backfill `EBIT = EBITDA - Depreciation` when EBIT is
missing but both others are present (src/metrics.py lines 204-205). -/
def ebit_ttm_fc (raw : RawSnapshot) : Val :=
  match ebit_ttm_fc0 raw, ebitda_ttm_fc0 raw, dep_ttm_fc raw with
  | none, some e, some d => some (e - d)
  | x, _, _ => x

/-- EBITDA after the symmetric backfill `EBITDA = EBIT + Depreciation`
(src/metrics.py lines 206-207); it sees the already-backfilled EBIT. -/
def ebitda_ttm_fc (raw : RawSnapshot) : Val :=
  match ebitda_ttm_fc0 raw, ebit_ttm_fc raw, dep_ttm_fc raw with
  | none, some e, some d => some (e + d)
  | x, _, _ => x

/-- TTM operating cash flow (src/metrics.py lines 210-215). -/
def cfo_ttm_fc (raw : RawSnapshot) : Val :=
  ttm_sum raw.q_cf
    ["Total Cash From Operating Activities", "Operating Cash Flow",
     "OperatingCashFlow", "NetCashProvidedByOperatingActivities",
     "Net Cash Provided By Operating Activities"]

/-- TTM capital expenditure, sign-normalized to negative
(src/metrics.py lines 216-225): `capex = -abs(capex)` when present. -/
def capex_ttm_fc (raw : RawSnapshot) : Val :=
  (ttm_sum raw.q_cf
    ["Capital Expenditures", "Capital Expenditure",
     "Purchase Of Property And Equipment", "Purchases Of Property And Equipment",
     "Investment In Property Plant And Equipment",
     "Investments In Property Plant And Equipment",
     "Additions To Property Plant And Equipment"]).map (fun x => -|x|)

/-- MRQ total debt (src/metrics.py lines 228-232): the direct total-debt
label if it resolves, else the sum of long-term and short-term debt with
each missing component coalesced to 0.0. -/
def total_debt_fc (raw : RawSnapshot) : Val :=
  match mrq_value raw.q_bs ["Total Debt", "TotalDebt"] with
  | some v => some v
  | none =>
    some ((mrq_value raw.q_bs
             ["Long Term Debt", "LongTermDebt", "Long Term Debt Noncurrent"]).getD 0
          + (mrq_value raw.q_bs
             ["Short Long Term Debt", "ShortTermDebt", "Current Debt",
              "Current Portion Of Long Term Debt"]).getD 0)

/-- MRQ cash (src/metrics.py line 234). -/
def cash_fc (raw : RawSnapshot) : Val :=
  mrq_value raw.q_bs ["Cash And Cash Equivalents", "Cash", "CashAndCashEquivalents"]

/-- MRQ equity (src/metrics.py line 235). -/
def equity_fc (raw : RawSnapshot) : Val :=
  mrq_value raw.q_bs
    ["Total Stockholder Equity", "Stockholders Equity",
     "Total Equity Gross Minority Interest", "totalStockholdersEquity"]

/-- MRQ current assets (src/metrics.py line 237). -/
def cur_assets_fc (raw : RawSnapshot) : Val :=
  mrq_value raw.q_bs ["Total Current Assets", "Current Assets", "CurrentAssets"]

/-- MRQ current liabilities (src/metrics.py line 238). -/
def cur_liab_fc (raw : RawSnapshot) : Val :=
  mrq_value raw.q_bs ["Total Current Liabilities", "Current Liabilities", "CurrentLiabilities"]

/-- MRQ short-term debt (src/metrics.py line 239). -/
def std_fc (raw : RawSnapshot) : Val :=
  mrq_value raw.q_bs ["Short Long Term Debt", "ShortTermDebt", "Current Debt"]

/-- MRQ net property, plant and equipment (src/metrics.py line 240). -/
def net_ppe_fc (raw : RawSnapshot) : Val :=
  mrq_value raw.q_bs
    ["Property Plant Equipment Net", "Net PPE", "PPENet", "NetPropertyPlantAndEquipment"]

/-- TTM free cash flow in market currency (src/metrics.py lines 257-260):
CFO + CapEx (CapEx already negative), NaN if either is NaN. -/
def fcf_ttm_val (raw : RawSnapshot) : Val :=
  match conv (cfo_ttm_fc raw) raw.fx, conv (capex_ttm_fc raw) raw.fx with
  | some a, some b => some (a + b)
  | _, _ => none

/-- Non-cash net working capital (src/metrics.py lines 262-267): NaN if
current assets or current liabilities are NaN; missing cash or short-term
debt coalesce to 0. -/
def ncwc_val (raw : RawSnapshot) : Val :=
  match conv (cur_assets_fc raw) raw.fx, conv (cur_liab_fc raw) raw.fx with
  | some a, some l =>
    some ((a - (conv (cash_fc raw) raw.fx).getD 0) - (l - (conv (std_fc raw) raw.fx).getD 0))
  | _, _ => none

/-- Enterprise value (src/metrics.py lines 269-279): when market cap is
present, `mc + debt - cash` with missing debt/cash treated as 0; when
market cap is NaN, fall back to `info.enterpriseValue` (itself possibly
absent). -/
def ev_val (raw : RawSnapshot) : Val :=
  match raw.market_cap with
  | some m =>
    some (m + (conv (total_debt_fc raw) raw.fx).getD 0 - (conv (cash_fc raw) raw.fx).getD 0)
  | none => raw.info_enterprise_value

/-- TTM pretax income in financial currency (src/metrics.py line 282). -/
def pretax_fc (raw : RawSnapshot) : Val :=
  ttm_sum raw.q_is ["Income Before Tax", "Pretax Income", "Income Before Income Taxes"]

/-- TTM income-tax expense (src/metrics.py line 283). -/
def tax_fc (raw : RawSnapshot) : Val :=
  ttm_sum raw.q_is ["Income Tax Expense", "Provision For Income Taxes"]

/-- Tax-rate estimate (src/metrics.py lines 284-290): with
`base = abs(pretax)`, the estimate is `max(0, min(0.35, tax / base))`
when `base > 0` and tax is present; in every other case (pretax NaN —
note `abs(nan) > 0` is false — pretax zero, or tax NaN) it stays NaN. -/
def tax_rate_est (raw : RawSnapshot) : Val :=
  match pretax_fc raw, tax_fc raw with
  | some p, some tx => if 0 < |p| then some (max 0 (min (35/100) (tx / |p|))) else none
  | _, _ => none

/-- The canonical record returned by `fetch_core_financials`
(src/metrics.py lines 292-320), omitting the currency-metadata strings. -/
structure Financials where
  Market_Cap : Val
  EV : Val
  Revenue_TTM : Val
  EBIT_TTM : Val
  Dep_TTM : Val
  EBITDA_TTM : Val
  CFO_TTM : Val
  CapEx_TTM : Val
  FCF_TTM : Val
  Debt_MRQ : Val
  Cash_MRQ : Val
  Equity_MRQ : Val
  NWC_MRQ : Val
  NetPPE_MRQ : Val
  Tax_Rate_est : Val

/-- Embedding of `fetch_core_financials` (src/metrics.py lines 183-320):
statement-derived figures are converted into market currency with the FX
rate; the tax-rate estimate is dimensionless and stays unconverted. -/
def fetch_core_financials (raw : RawSnapshot) : Financials :=
  { Market_Cap := raw.market_cap
  , EV := ev_val raw
  , Revenue_TTM := conv (revenue_ttm_fc raw) raw.fx
  , EBIT_TTM := conv (ebit_ttm_fc raw) raw.fx
  , Dep_TTM := conv (dep_ttm_fc raw) raw.fx
  , EBITDA_TTM := conv (ebitda_ttm_fc raw) raw.fx
  , CFO_TTM := conv (cfo_ttm_fc raw) raw.fx
  , CapEx_TTM := conv (capex_ttm_fc raw) raw.fx
  , FCF_TTM := fcf_ttm_val raw
  , Debt_MRQ := conv (total_debt_fc raw) raw.fx
  , Cash_MRQ := conv (cash_fc raw) raw.fx
  , Equity_MRQ := conv (equity_fc raw) raw.fx
  , NWC_MRQ := ncwc_val raw
  , NetPPE_MRQ := conv (net_ppe_fc raw) raw.fx
  , Tax_Rate_est := tax_rate_est raw }

/-- The multiples returned by `compute_common_multiples`
(src/metrics.py lines 322-332), keyed as in the returned dict. -/
structure Multiples where
  ev_ebitda : Val
  ev_ebit : Val
  ev_sales : Val
  ebit_ev : Val
  fcf_yield_to_equity : Val
  p_fcf : Val

/-- Embedding of `compute_common_multiples` (src/metrics.py lines
322-332): every ratio goes through `_safe_div`. -/
def compute_common_multiples (fin : Financials) : Multiples :=
  { ev_ebitda := safe_div fin.EV fin.EBITDA_TTM
  , ev_ebit := safe_div fin.EV fin.EBIT_TTM
  , ev_sales := safe_div fin.EV fin.Revenue_TTM
  , ebit_ev := safe_div fin.EBIT_TTM fin.EV
  , fcf_yield_to_equity := safe_div fin.FCF_TTM fin.Market_Cap
  , p_fcf := safe_div fin.Market_Cap fin.FCF_TTM }

/-- NOPAT as computed at the start of `compute_roic_variants`
(src/metrics.py lines 334-338): the tax-rate estimate defaults to 0.21
when NaN, and NOPAT is `EBIT * (1 - rate)` (NaN when EBIT is NaN). -/
def nopat_of (fin : Financials) : Val :=
  let tr := fin.Tax_Rate_est.getD (21/100)
  fin.EBIT_TTM.map (fun e => e * (1 - tr))

/-- Modelled from the spec: src/metrics.py is truncated mid-function at
line 341 (after reading Debt/Equity/Cash, at the token `invested`), so
the invested-capital base is taken from the spec's words,
`Invested_Capital = Debt + Equity - Cash`, undefined when any input is
undefined. -/
def invested_capital (fin : Financials) : Val :=
  match fin.Debt_MRQ, fin.Equity_MRQ, fin.Cash_MRQ with
  | some d, some e, some c => some (d + e - c)
  | _, _, _ => none

/-- Modelled from the spec: the Magic-Formula capital base
`NetWorkingCapital + NetPPE` used by the truncated tail of
`compute_roic_variants`, undefined when either input is undefined. -/
def magic_capital (fin : Financials) : Val :=
  match fin.NWC_MRQ, fin.NetPPE_MRQ with
  | some w, some p => some (w + p)
  | _, _ => none

/-- The return-on-capital ratio set of `compute_roic_variants`; the key
names appear in src/lenses.py ("ROIC (NOPAT / Invested Capital)" and
"ROC (Greenblatt, EBIT / (NWC + Net PPE))"). -/
structure Returns where
  roic : Val
  roc_greenblatt : Val

/-- Modelled from the spec: the returned dict of `compute_roic_variants`
is missing from the truncated src/metrics.py; per the spec's ratio
policy, `ROIC = NOPAT / Invested_Capital` and Magic-Formula
`ROC = EBIT / (NWC + NetPPE)`, both through the shared safe-division
policy.  The NOPAT prefix of the function survives in the source and is
embedded as `nopat_of`. -/
def compute_roic_variants (fin : Financials) : Returns :=
  { roic := safe_div (nopat_of fin) (invested_capital fin)
  , roc_greenblatt := safe_div fin.EBIT_TTM (magic_capital fin) }

/-- The provider `info` payload as consumed by `compute_metrics`
(src/core/metrics.py), plus the last close from the price history used
as the price fallback.  Field names follow the yfinance keys; a key that
is absent or NaN-valued maps to `none`. -/
structure InfoSnap where
  currentPrice : Val
  historyLastClose : Val
  marketCap : Val
  sharesOutstanding : Val
  enterpriseValue : Val
  trailingPE : Val
  netIncomeToCommon : Val
  netIncome : Val
  profit : Val
  priceToBook : Val
  ebitda : Val
  totalRevenue : Val
  freeCashflow : Val
  returnOnEquity : Val
  returnOnAssets : Val
  grossMargins : Val
  operatingMargins : Val
  profitMargins : Val
  revenueGrowth : Val
  earningsGrowth : Val
  debtToEquity : Val
  currentRt : Val
  quickRt : Val
  interestCoverage : Val
  dividendYield : Val
  trailingAnnualDividendYield : Val
  payoutRt : Val

/-- Python truthiness of a nullable number: false for None/NaN (`none`)
and for zero. -/
def truthy (o : Val) : Bool :=
  match o with
  | some x => x != 0
  | none => false

/-- The `net_income` falsy-coalescing chain of `compute_metrics`
(src/core/metrics.py lines 53-58 and 94-98):
`netIncomeToCommon or netIncome or profit`, used only behind truthiness
guards. -/
def net_income_val (i : InfoSnap) : Val :=
  if truthy i.netIncomeToCommon then i.netIncomeToCommon
  else if truthy i.netIncome then i.netIncome
  else if truthy i.profit then i.profit
  else none

/-- Price resolution (src/core/metrics.py lines 37-42): `currentPrice`,
else the last close of the history. -/
def price_val (i : InfoSnap) : Val :=
  match i.currentPrice with
  | some p => some p
  | none => i.historyLastClose

/-- Market-cap resolution (src/core/metrics.py lines 44-47):
`marketCap`, else `price * sharesOutstanding` when the price is present
and the share count truthy. -/
def market_cap_val (i : InfoSnap) : Val :=
  match i.marketCap with
  | some m => some m
  | none =>
    match price_val i, i.sharesOutstanding with
    | some p, some s => if s ≠ 0 then some (p * s) else none
    | _, _ => none

/-- P/E resolution (src/core/metrics.py lines 52-62): `trailingPE`, else
`_safe_div(market_cap, net_income)` when the net-income chain is truthy,
else NaN. -/
def pe_val (i : InfoSnap) : Val :=
  match i.trailingPE with
  | some p => some p
  | none =>
    if truthy (net_income_val i) then core_safe_div (market_cap_val i) (net_income_val i)
    else none

/-- The metrics record produced by `compute_metrics`
(src/core/metrics.py lines 137-179), flattened over its nested sections;
meta strings and fields unused by the checklists are omitted.  The
`currentRatio`/`quickRatio`/`payout_ratio` dict keys are shortened to
`current_rt`/`quick_rt`/`payout_rt` here. -/
structure Metrics where
  pe : Val
  pb : Val
  ev_ebitda : Val
  ev_sales : Val
  earnings_yield : Val
  fcf_yield : Val
  peg : Val
  roe : Val
  roa : Val
  gross_margin : Val
  op_margin : Val
  net_margin : Val
  fcf_conversion : Val
  revenue_growth : Val
  earnings_growth : Val
  debt_to_equity : Val
  current_rt : Val
  quick_rt : Val
  interest_coverage : Val
  dividend_yield : Val
  payout_rt : Val

/-- Embedding of `compute_metrics` (src/core/metrics.py lines 17-181).
Each guard mirrors the source: `if ebitda`/`if total_revenue` are Python
truthiness checks, the PEG needs a strictly positive growth rate, and a
`debtToEquity` above 10 is rescaled by 1/100. -/
def compute_metrics (i : InfoSnap) : Metrics :=
  { pe := pe_val i
  , pb := i.priceToBook
  , ev_ebitda :=
      if truthy i.ebitda then core_safe_div i.enterpriseValue i.ebitda else none
  , ev_sales :=
      if truthy i.totalRevenue then core_safe_div i.enterpriseValue i.totalRevenue else none
  , earnings_yield :=
      match pe_val i with
      | some p => if 0 < p then some (1 / p) else none
      | none => none
  , fcf_yield :=
      if truthy i.freeCashflow && truthy (market_cap_val i) then
        core_safe_div i.freeCashflow (market_cap_val i)
      else none
  , peg :=
      match pe_val i, i.earningsGrowth.or i.revenueGrowth with
      | some p, some g => if 0 < g then some (p / (g * 100)) else none
      | _, _ => none
  , roe := i.returnOnEquity
  , roa := i.returnOnAssets
  , gross_margin := i.grossMargins
  , op_margin := i.operatingMargins
  , net_margin := i.profitMargins
  , fcf_conversion :=
      if truthy i.freeCashflow && truthy (net_income_val i) then
        core_safe_div i.freeCashflow (net_income_val i)
      else none
  , revenue_growth := i.revenueGrowth
  , earnings_growth := i.earningsGrowth
  , debt_to_equity :=
      match i.debtToEquity with
      | some d => if 10 < d then some (d / 100) else some d
      | none => none
  , current_rt := i.currentRt
  , quick_rt := i.quickRt
  , interest_coverage := i.interestCoverage
  , dividend_yield :=
      match i.dividendYield with
      | some d => some d
      | none => i.trailingAnnualDividendYield
  , payout_rt := i.payoutRt }

/-- Rule verdicts used throughout src/profiles/investors.py. -/
inductive Status where
  | pass
  | warn
  | fail
  | na
deriving DecidableEq

/-- One evaluated rule, as built by `_rule` (src/profiles/investors.py
lines 54-68).  The numeric value is kept unformatted; `_fmt_pct` and
`_fmt_num` only affect the displayed string. -/
structure RuleEval where
  name : String
  condition : String
  value : Val
  asPct : Bool
  status : Status
  comment : String

/-- Summary block computed by `_summary_from_rules`
(src/profiles/investors.py lines 71-89). -/
structure Summary where
  passes : Nat
  warns : Nat
  fails : Nat
  headline : String

/-- A profile's checklist result: summary plus the ordered rules. -/
structure Checklist where
  summary : Summary
  rules : List RuleEval

/-- Embedding of `_summary_from_rules`: status counts and the coarse
headline ("very friendly" iff zero fails and at least four passes, else
"mixed" iff passes ≥ fails). -/
def summary_from_rules (rules : List RuleEval) (label : String) : Summary :=
  let passes := rules.countP (fun r => r.status == Status.pass)
  let warns := rules.countP (fun r => r.status == Status.warn)
  let fails := rules.countP (fun r => r.status == Status.fail)
  let headline :=
    if fails == 0 && 4 ≤ passes then "Very " ++ label ++ "-friendly profile."
    else if fails ≤ passes then "Mixed but somewhat " ++ label ++ "-compatible."
    else "Not a classic " ++ label ++ "-style candidate."
  { passes := passes, warns := warns, fails := fails, headline := headline }

/-- Graham rule 1: P/E ≤ 15 (src/profiles/investors.py lines 103-121). -/
def graham_rule_pe (pe : Val) : RuleEval :=
  match pe with
  | none =>
    { name := "P/E multiple", condition := "P/E ≤ 15", value := none, asPct := false
    , status := Status.na, comment := "P/E not available from Yahoo Finance." }
  | some p =>
    if p ≤ 15 then
      { name := "P/E multiple", condition := "P/E ≤ 15", value := some p, asPct := false
      , status := Status.pass, comment := "Classic Graham low multiple." }
    else
      { name := "P/E multiple", condition := "P/E ≤ 15", value := some p, asPct := false
      , status := Status.fail, comment := "Above the classic Graham threshold." }

/-- Graham rule 2: P/B ≤ 1.5 (lines 123-141). -/
def graham_rule_pb (pb : Val) : RuleEval :=
  match pb with
  | none =>
    { name := "Price to book", condition := "P/B ≤ 1.5", value := none, asPct := false
    , status := Status.na, comment := "Book value data missing." }
  | some b =>
    if b ≤ 1.5 then
      { name := "Price to book", condition := "P/B ≤ 1.5", value := some b, asPct := false
      , status := Status.pass, comment := "Discount or near-discount to book." }
    else
      { name := "Price to book", condition := "P/B ≤ 1.5", value := some b, asPct := false
      , status := Status.fail, comment := "Above classic Graham P/B." }

/-- Graham rule 3: P/E × P/B ≤ 22.5 (lines 143-169); the source's `_rule`
call in the non-na branch passes no comment, so it defaults to "". -/
def graham_rule_product (pe pb : Val) : RuleEval :=
  match pe, pb with
  | some p, some b =>
    let prod := p * b
    if prod ≤ 22.5 then
      { name := "Graham product", condition := "P/E × P/B ≤ 22.5", value := some prod
      , asPct := false, status := Status.pass, comment := "" }
    else
      { name := "Graham product", condition := "P/E × P/B ≤ 22.5", value := some prod
      , asPct := false, status := Status.fail, comment := "" }
  | _, _ =>
    { name := "Graham product", condition := "P/E × P/B ≤ 22.5", value := none
    , asPct := false, status := Status.na, comment := "Need both P/E and P/B to check this." }

/-- Graham rule 4: Debt/Equity tiers (lines 171-197). -/
def graham_rule_leverage (dte : Val) : RuleEval :=
  match dte with
  | none =>
    { name := "Leverage", condition := "Debt/Equity ≤ 0.5", value := none, asPct := false
    , status := Status.na, comment := "Leverage data missing." }
  | some d =>
    if d ≤ 0.5 then
      { name := "Leverage", condition := "Debt/Equity ≤ 0.5", value := some d, asPct := false
      , status := Status.pass, comment := "Very conservative leverage." }
    else if d ≤ 1.0 then
      { name := "Leverage", condition := "Debt/Equity ≤ 0.5", value := some d, asPct := false
      , status := Status.warn, comment := "Moderate leverage." }
    else
      { name := "Leverage", condition := "Debt/Equity ≤ 0.5", value := some d, asPct := false
      , status := Status.fail, comment := "High leverage for Graham style." }

/-- Graham rule 5: current-ratio tiers (lines 199-225). -/
def graham_rule_liquidity (cr : Val) : RuleEval :=
  match cr with
  | none =>
    { name := "Liquidity", condition := "Current ratio ≥ 2.0", value := none, asPct := false
    , status := Status.na, comment := "Liquidity data missing." }
  | some c =>
    if 2.0 ≤ c then
      { name := "Liquidity", condition := "Current ratio ≥ 2.0", value := some c, asPct := false
      , status := Status.pass, comment := "Strong near-term liquidity." }
    else if 1.5 ≤ c then
      { name := "Liquidity", condition := "Current ratio ≥ 2.0", value := some c, asPct := false
      , status := Status.warn, comment := "Acceptable but not ideal." }
    else
      { name := "Liquidity", condition := "Current ratio ≥ 2.0", value := some c, asPct := false
      , status := Status.fail, comment := "Weak current ratio for Graham." }

/-- Embedding of `graham_rules` (src/profiles/investors.py lines
95-228). -/
def graham_rules (m : Metrics) : Checklist :=
  let rules := [graham_rule_pe m.pe, graham_rule_pb m.pb,
                graham_rule_product m.pe m.pb,
                graham_rule_leverage m.debt_to_equity,
                graham_rule_liquidity m.current_rt]
  { summary := summary_from_rules rules "Graham", rules := rules }

/-- Buffett rule: ROE tiers (src/profiles/investors.py lines 244-274). -/
def buffett_rule_roe (roe : Val) : RuleEval :=
  match roe with
  | none =>
    { name := "Return on equity", condition := "ROE ≥ 15%", value := none, asPct := true
    , status := Status.na, comment := "ROE not available." }
  | some r =>
    if 0.20 ≤ r then
      { name := "Return on equity", condition := "ROE ≥ 15%", value := some r, asPct := true
      , status := Status.pass, comment := "Excellent long-term profitability." }
    else if 0.15 ≤ r then
      { name := "Return on equity", condition := "ROE ≥ 15%", value := some r, asPct := true
      , status := Status.pass, comment := "Good profitability." }
    else if 0.10 ≤ r then
      { name := "Return on equity", condition := "ROE ≥ 15%", value := some r, asPct := true
      , status := Status.warn, comment := "Okay, but not standout." }
    else
      { name := "Return on equity", condition := "ROE ≥ 15%", value := some r, asPct := true
      , status := Status.fail, comment := "Low ROE for a Buffett compounder." }

/-- Buffett rule: gross margin ≥ 40% (lines 276-304). -/
def buffett_rule_gross (gm : Val) : RuleEval :=
  match gm with
  | none =>
    { name := "Gross margin", condition := "Gross margin ≥ 40%", value := none, asPct := true
    , status := Status.na, comment := "Margin data missing." }
  | some g =>
    if 0.4 ≤ g then
      { name := "Gross margin", condition := "Gross margin ≥ 40%", value := some g, asPct := true
      , status := Status.pass, comment := "Indicates pricing power and moat." }
    else
      { name := "Gross margin", condition := "Gross margin ≥ 40%", value := some g, asPct := true
      , status := Status.warn, comment := "Not obviously a high-moat margin." }

/-- Buffett rule: operating margin tiers (lines 306-334). -/
def buffett_rule_op (om : Val) : RuleEval :=
  match om with
  | none =>
    { name := "Operating margin", condition := "Operating margin ≥ 20%", value := none
    , asPct := true, status := Status.na, comment := "Operating margin missing." }
  | some o =>
    if 0.20 ≤ o then
      { name := "Operating margin", condition := "Operating margin ≥ 20%", value := some o
      , asPct := true, status := Status.pass, comment := "Strong operating profitability." }
    else if 0.12 ≤ o then
      { name := "Operating margin", condition := "Operating margin ≥ 20%", value := some o
      , asPct := true, status := Status.warn, comment := "Decent but not elite." }
    else
      { name := "Operating margin", condition := "Operating margin ≥ 20%", value := some o
      , asPct := true, status := Status.fail, comment := "Thin operating margin." }

/-- Buffett rule: cash conversion bands (lines 336-364). -/
def buffett_rule_conversion (fc : Val) : RuleEval :=
  match fc with
  | none =>
    { name := "Cash conversion", condition := "FCF / Net income ≈ 80–120%", value := none
    , asPct := true, status := Status.na, comment := "Cash-flow detail missing." }
  | some c =>
    if 0.8 ≤ c ∧ c ≤ 1.2 then
      { name := "Cash conversion", condition := "FCF / Net income ≈ 80–120%", value := some c
      , asPct := true, status := Status.pass, comment := "Earnings are backed by cash." }
    else if 0.6 ≤ c ∧ c ≤ 1.4 then
      { name := "Cash conversion", condition := "FCF / Net income ≈ 80–120%", value := some c
      , asPct := true, status := Status.warn, comment := "Okay but a bit noisy." }
    else
      { name := "Cash conversion", condition := "FCF / Net income ≈ 80–120%", value := some c
      , asPct := true, status := Status.fail, comment := "Earnings not reliably backed by cash." }

/-- Buffett rule: leverage tiers (lines 366-386). -/
def buffett_rule_leverage (dte : Val) : RuleEval :=
  match dte with
  | none =>
    { name := "Leverage", condition := "Debt/Equity ≤ 0.5", value := none, asPct := false
    , status := Status.na, comment := "Leverage data missing." }
  | some d =>
    if d ≤ 0.5 then
      { name := "Leverage", condition := "Debt/Equity ≤ 0.5", value := some d, asPct := false
      , status := Status.pass, comment := "Very conservative balance sheet." }
    else if d ≤ 1.0 then
      { name := "Leverage", condition := "Debt/Equity ≤ 0.5", value := some d, asPct := false
      , status := Status.warn, comment := "Moderate leverage." }
    else
      { name := "Leverage", condition := "Debt/Equity ≤ 0.5", value := some d, asPct := false
      , status := Status.fail, comment := "Heavy leverage for Buffett style." }

/-- Buffett rule: P/E tiers (lines 388-406). -/
def buffett_rule_pe (pe : Val) : RuleEval :=
  match pe with
  | none =>
    { name := "Valuation", condition := "P/E ≤ 20", value := none, asPct := false
    , status := Status.na, comment := "P/E not available." }
  | some p =>
    if p ≤ 20 then
      { name := "Valuation", condition := "P/E ≤ 20", value := some p, asPct := false
      , status := Status.pass, comment := "Reasonable price for quality." }
    else if p ≤ 30 then
      { name := "Valuation", condition := "P/E ≤ 20", value := some p, asPct := false
      , status := Status.warn, comment := "Somewhat rich valuation." }
    else
      { name := "Valuation", condition := "P/E ≤ 20", value := some p, asPct := false
      , status := Status.fail, comment := "Very expensive relative to earnings." }

/-- Embedding of `buffett_rules` (lines 234-409). -/
def buffett_rules (m : Metrics) : Checklist :=
  let rules := [buffett_rule_roe m.roe, buffett_rule_gross m.gross_margin,
                buffett_rule_op m.op_margin, buffett_rule_conversion m.fcf_conversion,
                buffett_rule_leverage m.debt_to_equity, buffett_rule_pe m.pe]
  { summary := summary_from_rules rules "Buffett", rules := rules }

/-- Lynch rule: growth tiers over earnings growth, else revenue growth
(lines 424-456). -/
def lynch_rule_growth (g : Val) : RuleEval :=
  match g with
  | none =>
    { name := "Growth rate", condition := "Growth ≥ 10%", value := none, asPct := true
    , status := Status.na, comment := "Growth data missing." }
  | some x =>
    if 0.20 ≤ x then
      { name := "Growth rate", condition := "Growth ≥ 10%", value := some x, asPct := true
      , status := Status.pass, comment := "Very strong growth." }
    else if 0.10 ≤ x then
      { name := "Growth rate", condition := "Growth ≥ 10%", value := some x, asPct := true
      , status := Status.pass, comment := "Solid, Lynch-style grower." }
    else if 0.05 ≤ x then
      { name := "Growth rate", condition := "Growth ≥ 10%", value := some x, asPct := true
      , status := Status.warn, comment := "Mild growth." }
    else
      { name := "Growth rate", condition := "Growth ≥ 10%", value := some x, asPct := true
      , status := Status.fail, comment := "Low growth for Lynch-style idea." }

/-- Lynch rule: PEG tiers (lines 458-476). -/
def lynch_rule_peg (peg : Val) : RuleEval :=
  match peg with
  | none =>
    { name := "PEG ratio", condition := "PEG ≈ 1.0", value := none, asPct := false
    , status := Status.na, comment := "PEG can't be computed reliably." }
  | some x =>
    if x ≤ 1.0 then
      { name := "PEG ratio", condition := "PEG ≈ 1.0", value := some x, asPct := false
      , status := Status.pass, comment := "Classic Lynch PEG ≤ 1." }
    else if x ≤ 1.5 then
      { name := "PEG ratio", condition := "PEG ≈ 1.0", value := some x, asPct := false
      , status := Status.warn, comment := "PEG a bit high but maybe okay." }
    else
      { name := "PEG ratio", condition := "PEG ≈ 1.0", value := some x, asPct := false
      , status := Status.fail, comment := "PEG too high for GARP." }

/-- Lynch rule: P/E guardrail tiers (lines 478-498). -/
def lynch_rule_pe (pe : Val) : RuleEval :=
  match pe with
  | none =>
    { name := "P/E guardrail", condition := "P/E not extreme (≤ 30)", value := none
    , asPct := false, status := Status.na, comment := "P/E missing." }
  | some p =>
    if p ≤ 20 then
      { name := "P/E guardrail", condition := "P/E not extreme (≤ 30)", value := some p
      , asPct := false, status := Status.pass, comment := "Reasonable earnings multiple." }
    else if p ≤ 30 then
      { name := "P/E guardrail", condition := "P/E not extreme (≤ 30)", value := some p
      , asPct := false, status := Status.warn, comment := "Upper end of reasonable." }
    else
      { name := "P/E guardrail", condition := "P/E not extreme (≤ 30)", value := some p
      , asPct := false, status := Status.fail, comment := "Too expensive for Lynch-style GARP." }

/-- Lynch rule: leverage tiers (lines 500-520). -/
def lynch_rule_leverage (dte : Val) : RuleEval :=
  match dte with
  | none =>
    { name := "Leverage", condition := "Debt/Equity ≤ 1.0", value := none, asPct := false
    , status := Status.na, comment := "Leverage data missing." }
  | some d =>
    if d ≤ 0.5 then
      { name := "Leverage", condition := "Debt/Equity ≤ 1.0", value := some d, asPct := false
      , status := Status.pass, comment := "Comfortable leverage for a grower." }
    else if d ≤ 1.0 then
      { name := "Leverage", condition := "Debt/Equity ≤ 1.0", value := some d, asPct := false
      , status := Status.warn, comment := "Moderate leverage." }
    else
      { name := "Leverage", condition := "Debt/Equity ≤ 1.0", value := some d, asPct := false
      , status := Status.fail, comment := "High leverage for Lynch-style stock." }

/-- Embedding of `lynch_rules` (lines 415-523); the growth input is
earnings growth when present, else revenue growth (line 424). -/
def lynch_rules (m : Metrics) : Checklist :=
  let growth := match m.earnings_growth with
    | some g => some g
    | none => m.revenue_growth
  let rules := [lynch_rule_growth growth, lynch_rule_peg m.peg,
                lynch_rule_pe m.pe, lynch_rule_leverage m.debt_to_equity]
  { summary := summary_from_rules rules "Lynch", rules := rules }

/-- Greenblatt rule: earnings-yield tiers (lines 536-565). -/
def greenblatt_rule_ey (ey : Val) : RuleEval :=
  match ey with
  | none =>
    { name := "Earnings yield", condition := "Earnings yield ≥ 8%", value := none
    , asPct := true, status := Status.na, comment := "Earnings yield can't be computed." }
  | some e =>
    if 0.15 ≤ e then
      { name := "Earnings yield", condition := "Earnings yield ≥ 8%", value := some e
      , asPct := true, status := Status.pass, comment := "Very cheap on earnings." }
    else if 0.08 ≤ e then
      { name := "Earnings yield", condition := "Earnings yield ≥ 8%", value := some e
      , asPct := true, status := Status.pass, comment := "Cheap-ish on earnings." }
    else
      { name := "Earnings yield", condition := "Earnings yield ≥ 8%", value := some e
      , asPct := true, status := Status.fail, comment := "Not cheap for Magic Formula." }

/-- Greenblatt rule: ROE as ROC proxy (lines 567-595). -/
def greenblatt_rule_roe (roe : Val) : RuleEval :=
  match roe with
  | none =>
    { name := "Return on capital (ROE proxy)", condition := "ROE ≥ 15%", value := none
    , asPct := true, status := Status.na, comment := "ROE not available." }
  | some r =>
    if 0.20 ≤ r then
      { name := "Return on capital (ROE proxy)", condition := "ROE ≥ 15%", value := some r
      , asPct := true, status := Status.pass, comment := "Excellent return on capital." }
    else if 0.15 ≤ r then
      { name := "Return on capital (ROE proxy)", condition := "ROE ≥ 15%", value := some r
      , asPct := true, status := Status.pass, comment := "Good return on capital." }
    else
      { name := "Return on capital (ROE proxy)", condition := "ROE ≥ 15%", value := some r
      , asPct := true, status := Status.fail, comment := "Weak ROC for Magic Formula." }

/-- Greenblatt rule: EV/EBITDA tiers (lines 597-617). -/
def greenblatt_rule_ev_ebitda (x : Val) : RuleEval :=
  match x with
  | none =>
    { name := "EV/EBITDA", condition := "EV/EBITDA ≤ 10", value := none, asPct := false
    , status := Status.na, comment := "EV/EBITDA missing." }
  | some v =>
    if v ≤ 8 then
      { name := "EV/EBITDA", condition := "EV/EBITDA ≤ 10", value := some v, asPct := false
      , status := Status.pass, comment := "Multiple consistent with Magic Formula cheapness." }
    else if v ≤ 10 then
      { name := "EV/EBITDA", condition := "EV/EBITDA ≤ 10", value := some v, asPct := false
      , status := Status.warn, comment := "Okay, not screaming cheap." }
    else
      { name := "EV/EBITDA", condition := "EV/EBITDA ≤ 10", value := some v, asPct := false
      , status := Status.fail, comment := "Too expensive on EV/EBITDA." }

/-- Embedding of `greenblatt_rules` (lines 529-620). -/
def greenblatt_rules (m : Metrics) : Checklist :=
  let rules := [greenblatt_rule_ey m.earnings_yield, greenblatt_rule_roe m.roe,
                greenblatt_rule_ev_ebitda m.ev_ebitda]
  { summary := summary_from_rules rules "Greenblatt", rules := rules }

/-- Burry rule: FCF-yield tiers (lines 634-663). -/
def burry_rule_fcf (fy : Val) : RuleEval :=
  match fy with
  | none =>
    { name := "FCF yield", condition := "FCF yield ≥ 8–10%", value := none, asPct := true
    , status := Status.na, comment := "Free cash flow data missing." }
  | some f =>
    if 0.10 ≤ f then
      { name := "FCF yield", condition := "FCF yield ≥ 8–10%", value := some f, asPct := true
      , status := Status.pass, comment := "Very cheap on cash flows." }
    else if 0.06 ≤ f then
      { name := "FCF yield", condition := "FCF yield ≥ 8–10%", value := some f, asPct := true
      , status := Status.warn, comment := "Cheap-ish on cash flows." }
    else
      { name := "FCF yield", condition := "FCF yield ≥ 8–10%", value := some f, asPct := true
      , status := Status.fail, comment := "Not cheap on cash flows." }

/-- Burry rule: EV/EBITDA with a P/E backup (lines 665-700); na only when
both inputs are missing. -/
def burry_rule_multiples (ev_ebitda pe : Val) : RuleEval :=
  match ev_ebitda with
  | some v =>
    if v ≤ 8 then
      { name := "EV/EBITDA", condition := "EV/EBITDA ≤ 10", value := some v, asPct := false
      , status := Status.pass, comment := "EV/EBITDA consistent with deep value." }
    else if v ≤ 10 then
      { name := "EV/EBITDA", condition := "EV/EBITDA ≤ 10", value := some v, asPct := false
      , status := Status.warn, comment := "Okay but not extreme value." }
    else
      { name := "EV/EBITDA", condition := "EV/EBITDA ≤ 10", value := some v, asPct := false
      , status := Status.fail, comment := "Rich on EV/EBITDA for Burry." }
  | none =>
    match pe with
    | none =>
      { name := "Valuation multiples", condition := "EV/EBITDA ≤ 10 or P/E ≤ 12", value := none
      , asPct := false, status := Status.na, comment := "Valuation multiples missing." }
    | some p =>
      if p ≤ 10 then
        { name := "P/E", condition := "P/E ≤ 12", value := some p, asPct := false
        , status := Status.pass, comment := "Low P/E as backup value signal." }
      else if p ≤ 14 then
        { name := "P/E", condition := "P/E ≤ 12", value := some p, asPct := false
        , status := Status.warn, comment := "Moderate P/E." }
      else
        { name := "P/E", condition := "P/E ≤ 12", value := some p, asPct := false
        , status := Status.fail, comment := "High P/E for deep value." }

/-- Burry rule: leverage tiers (lines 702-722). -/
def burry_rule_leverage (dte : Val) : RuleEval :=
  match dte with
  | none =>
    { name := "Leverage", condition := "Debt/Equity ≤ 1.0", value := none, asPct := false
    , status := Status.na, comment := "Leverage data missing." }
  | some d =>
    if d ≤ 0.5 then
      { name := "Leverage", condition := "Debt/Equity ≤ 1.0", value := some d, asPct := false
      , status := Status.pass, comment := "Very conservative balance sheet." }
    else if d ≤ 1.0 then
      { name := "Leverage", condition := "Debt/Equity ≤ 1.0", value := some d, asPct := false
      , status := Status.warn, comment := "Manageable leverage." }
    else
      { name := "Leverage", condition := "Debt/Equity ≤ 1.0", value := some d, asPct := false
      , status := Status.fail, comment := "High leverage for a deep value idea." }

/-- Embedding of `burry_rules` (lines 626-725). -/
def burry_rules (m : Metrics) : Checklist :=
  let rules := [burry_rule_fcf m.fcf_yield, burry_rule_multiples m.ev_ebitda m.pe,
                burry_rule_leverage m.debt_to_equity]
  { summary := summary_from_rules rules "Burry", rules := rules }

/-- Smith rule: ROE tiers (lines 741-764). -/
def smith_rule_roe (roe : Val) : RuleEval :=
  match roe with
  | none =>
    { name := "ROE", condition := "ROE ≥ 15%", value := none, asPct := true
    , status := Status.na, comment := "ROE not available." }
  | some r =>
    if 0.20 ≤ r then
      { name := "ROE", condition := "ROE ≥ 15%", value := some r, asPct := true
      , status := Status.pass, comment := "Very strong returns on capital." }
    else if 0.15 ≤ r then
      { name := "ROE", condition := "ROE ≥ 15%", value := some r, asPct := true
      , status := Status.pass, comment := "Good returns on capital." }
    else if 0.10 ≤ r then
      { name := "ROE", condition := "ROE ≥ 15%", value := some r, asPct := true
      , status := Status.warn, comment := "Okay but not elite." }
    else
      { name := "ROE", condition := "ROE ≥ 15%", value := some r, asPct := true
      , status := Status.fail, comment := "Weak ROE for Smith-style compounders." }

/-- Smith rule: gross margin ≥ 50% tiers (lines 766-794). -/
def smith_rule_gross (gm : Val) : RuleEval :=
  match gm with
  | none =>
    { name := "Gross margin", condition := "Gross margin ≥ 50%", value := none, asPct := true
    , status := Status.na, comment := "Margin data missing." }
  | some g =>
    if 0.50 ≤ g then
      { name := "Gross margin", condition := "Gross margin ≥ 50%", value := some g, asPct := true
      , status := Status.pass, comment := "High value-add / pricing power." }
    else if 0.40 ≤ g then
      { name := "Gross margin", condition := "Gross margin ≥ 50%", value := some g, asPct := true
      , status := Status.warn, comment := "Okay but not top-tier." }
    else
      { name := "Gross margin", condition := "Gross margin ≥ 50%", value := some g, asPct := true
      , status := Status.fail, comment := "Low gross margin for Smith-style quality." }

/-- Smith rule: net margin tiers (lines 796-826). -/
def smith_rule_net (nm : Val) : RuleEval :=
  match nm with
  | none =>
    { name := "Net margin", condition := "Net margin ≥ 10%", value := none, asPct := true
    , status := Status.na, comment := "Net margin missing." }
  | some n =>
    if 0.15 ≤ n then
      { name := "Net margin", condition := "Net margin ≥ 10%", value := some n, asPct := true
      , status := Status.pass, comment := "Very strong net margins." }
    else if 0.10 ≤ n then
      { name := "Net margin", condition := "Net margin ≥ 10%", value := some n, asPct := true
      , status := Status.pass, comment := "Healthy net margins." }
    else if 0.07 ≤ n then
      { name := "Net margin", condition := "Net margin ≥ 10%", value := some n, asPct := true
      , status := Status.warn, comment := "Okay margins." }
    else
      { name := "Net margin", condition := "Net margin ≥ 10%", value := some n, asPct := true
      , status := Status.fail, comment := "Thin profitability." }

/-- Smith rule: revenue-growth tiers (lines 828-858). -/
def smith_rule_growth (rg : Val) : RuleEval :=
  match rg with
  | none =>
    { name := "Revenue growth", condition := "Growth ≥ 5%", value := none, asPct := true
    , status := Status.na, comment := "Growth data missing." }
  | some g =>
    if 0.10 ≤ g then
      { name := "Revenue growth", condition := "Growth ≥ 5%", value := some g, asPct := true
      , status := Status.pass, comment := "Solid top-line growth." }
    else if 0.05 ≤ g then
      { name := "Revenue growth", condition := "Growth ≥ 5%", value := some g, asPct := true
      , status := Status.pass, comment := "Reasonable growth." }
    else if 0.0 ≤ g then
      { name := "Revenue growth", condition := "Growth ≥ 5%", value := some g, asPct := true
      , status := Status.warn, comment := "Flat-ish revenue." }
    else
      { name := "Revenue growth", condition := "Growth ≥ 5%", value := some g, asPct := true
      , status := Status.fail, comment := "Shrinking business." }

/-- Smith rule: leverage tiers (lines 860-880). -/
def smith_rule_leverage (dte : Val) : RuleEval :=
  match dte with
  | none =>
    { name := "Leverage", condition := "Debt/Equity ≤ 0.5", value := none, asPct := false
    , status := Status.na, comment := "Leverage data missing." }
  | some d =>
    if d ≤ 0.5 then
      { name := "Leverage", condition := "Debt/Equity ≤ 0.5", value := some d, asPct := false
      , status := Status.pass, comment := "Balance sheet fits quality style." }
    else if d ≤ 1.0 then
      { name := "Leverage", condition := "Debt/Equity ≤ 0.5", value := some d, asPct := false
      , status := Status.warn, comment := "Some leverage but manageable." }
    else
      { name := "Leverage", condition := "Debt/Equity ≤ 0.5", value := some d, asPct := false
      , status := Status.fail, comment := "Too much leverage for Smith style." }

/-- Smith rule: P/E guardrail (lines 882-900); the na branch labels the
condition "P/E ≤ 30" while the evaluated branch uses "P/E ≤ 30–35",
exactly as in the source. -/
def smith_rule_pe (pe : Val) : RuleEval :=
  match pe with
  | none =>
    { name := "Valuation", condition := "P/E ≤ 30", value := none, asPct := false
    , status := Status.na, comment := "P/E not available." }
  | some p =>
    if p ≤ 25 then
      { name := "Valuation", condition := "P/E ≤ 30–35", value := some p, asPct := false
      , status := Status.pass, comment := "Valuation broadly reasonable for quality." }
    else if p ≤ 35 then
      { name := "Valuation", condition := "P/E ≤ 30–35", value := some p, asPct := false
      , status := Status.warn, comment := "Stretch valuation." }
    else
      { name := "Valuation", condition := "P/E ≤ 30–35", value := some p, asPct := false
      , status := Status.fail, comment := "Very rich for Smith style." }

/-- Embedding of `smith_rules` (lines 731-903). -/
def smith_rules (m : Metrics) : Checklist :=
  let rules := [smith_rule_roe m.roe, smith_rule_gross m.gross_margin,
                smith_rule_net m.net_margin, smith_rule_growth m.revenue_growth,
                smith_rule_leverage m.debt_to_equity, smith_rule_pe m.pe]
  { summary := summary_from_rules rules "Smith-style quality", rules := rules }

/-- Dividend rule: yield band (lines 918-946); out-of-band values warn on
both sides, never fail. -/
def dividend_rule_yield (dy : Val) : RuleEval :=
  match dy with
  | none =>
    { name := "Dividend yield", condition := "Target 2–8%", value := none, asPct := true
    , status := Status.na, comment := "Dividend yield not available." }
  | some y =>
    if 0.02 ≤ y ∧ y ≤ 0.08 then
      { name := "Dividend yield", condition := "Target 2–8%", value := some y, asPct := true
      , status := Status.pass, comment := "Comfortable income range." }
    else if y < 0.02 then
      { name := "Dividend yield", condition := "Target 2–8%", value := some y, asPct := true
      , status := Status.warn, comment := "Low current yield." }
    else
      { name := "Dividend yield", condition := "Target 2–8%", value := some y, asPct := true
      , status := Status.warn, comment := "Very high yield – check sustainability." }

/-- Dividend rule: payout tiers (lines 948-976). -/
def dividend_rule_payout (po : Val) : RuleEval :=
  match po with
  | none =>
    { name := "Payout ratio", condition := "Payout ≤ 70%", value := none, asPct := true
    , status := Status.na, comment := "Payout ratio not reported." }
  | some p =>
    if p ≤ 0.5 then
      { name := "Payout ratio", condition := "Payout ≤ 70%", value := some p, asPct := true
      , status := Status.pass, comment := "Comfortable payout with room to reinvest." }
    else if p ≤ 0.7 then
      { name := "Payout ratio", condition := "Payout ≤ 70%", value := some p, asPct := true
      , status := Status.warn, comment := "Upper end of comfortable." }
    else
      { name := "Payout ratio", condition := "Payout ≤ 70%", value := some p, asPct := true
      , status := Status.fail, comment := "Very high payout ratio." }

/-- Dividend rule: FCF-yield tiers (lines 978-1006). -/
def dividend_rule_fcf (fy : Val) : RuleEval :=
  match fy with
  | none =>
    { name := "FCF yield", condition := "FCF yield ≥ 0%", value := none, asPct := true
    , status := Status.na, comment := "Free cash flow data missing." }
  | some f =>
    if 0.05 ≤ f then
      { name := "FCF yield", condition := "FCF yield ≥ 0%", value := some f, asPct := true
      , status := Status.pass, comment := "Strong cash backing for dividends." }
    else if 0.0 ≤ f then
      { name := "FCF yield", condition := "FCF yield ≥ 0%", value := some f, asPct := true
      , status := Status.warn, comment := "Thin cash backing." }
    else
      { name := "FCF yield", condition := "FCF yield ≥ 0%", value := some f, asPct := true
      , status := Status.fail, comment := "Negative free cash flow." }

/-- Dividend rule: leverage tiers (lines 1008-1028). -/
def dividend_rule_leverage (dte : Val) : RuleEval :=
  match dte with
  | none =>
    { name := "Leverage", condition := "Debt/Equity ≤ 1.0", value := none, asPct := false
    , status := Status.na, comment := "Leverage data missing." }
  | some d =>
    if d ≤ 0.5 then
      { name := "Leverage", condition := "Debt/Equity ≤ 1.0", value := some d, asPct := false
      , status := Status.pass, comment := "Conservative balance sheet." }
    else if d ≤ 1.0 then
      { name := "Leverage", condition := "Debt/Equity ≤ 1.0", value := some d, asPct := false
      , status := Status.warn, comment := "Moderate leverage." }
    else
      { name := "Leverage", condition := "Debt/Equity ≤ 1.0", value := some d, asPct := false
      , status := Status.fail, comment := "High leverage for dividend safety." }

/-- Dividend rule: earnings-growth tiers (lines 1030-1058). -/
def dividend_rule_growth (eg : Val) : RuleEval :=
  match eg with
  | none =>
    { name := "Earnings growth", condition := "Growth ≥ 0%", value := none, asPct := true
    , status := Status.na, comment := "Earnings growth missing." }
  | some g =>
    if 0.05 ≤ g then
      { name := "Earnings growth", condition := "Growth ≥ 0%", value := some g, asPct := true
      , status := Status.pass, comment := "Growing earnings support dividend growth." }
    else if 0.0 ≤ g then
      { name := "Earnings growth", condition := "Growth ≥ 0%", value := some g, asPct := true
      , status := Status.warn, comment := "Flat earnings – watch closely." }
    else
      { name := "Earnings growth", condition := "Growth ≥ 0%", value := some g, asPct := true
      , status := Status.fail, comment := "Shrinking earnings – risk to dividend." }

/-- Embedding of `dividend_rules` (lines 909-1061). -/
def dividend_rules (m : Metrics) : Checklist :=
  let rules := [dividend_rule_yield m.dividend_yield, dividend_rule_payout m.payout_rt,
                dividend_rule_fcf m.fcf_yield, dividend_rule_leverage m.debt_to_equity,
                dividend_rule_growth m.earnings_growth]
  { summary := summary_from_rules rules "dividend-investor", rules := rules }

/-- Fisher rule: revenue-growth tiers (lines 1076-1106). -/
def fisher_rule_growth (rg : Val) : RuleEval :=
  match rg with
  | none =>
    { name := "Revenue growth", condition := "Growth ≥ 10%", value := none, asPct := true
    , status := Status.na, comment := "Growth data missing." }
  | some g =>
    if 0.15 ≤ g then
      { name := "Revenue growth", condition := "Growth ≥ 10%", value := some g, asPct := true
      , status := Status.pass, comment := "Strong top-line growth." }
    else if 0.10 ≤ g then
      { name := "Revenue growth", condition := "Growth ≥ 10%", value := some g, asPct := true
      , status := Status.pass, comment := "Solid growth." }
    else if 0.05 ≤ g then
      { name := "Revenue growth", condition := "Growth ≥ 10%", value := some g, asPct := true
      , status := Status.warn, comment := "Mild growth." }
    else
      { name := "Revenue growth", condition := "Growth ≥ 10%", value := some g, asPct := true
      , status := Status.fail, comment := "Low growth for Fisher-style idea." }

/-- Fisher rule: ROE tiers (lines 1108-1131). -/
def fisher_rule_roe (roe : Val) : RuleEval :=
  match roe with
  | none =>
    { name := "ROE", condition := "ROE ≥ 15%", value := none, asPct := true
    , status := Status.na, comment := "ROE not available." }
  | some r =>
    if 0.20 ≤ r then
      { name := "ROE", condition := "ROE ≥ 15%", value := some r, asPct := true
      , status := Status.pass, comment := "High quality with strong ROE." }
    else if 0.15 ≤ r then
      { name := "ROE", condition := "ROE ≥ 15%", value := some r, asPct := true
      , status := Status.pass, comment := "Good ROE." }
    else if 0.10 ≤ r then
      { name := "ROE", condition := "ROE ≥ 15%", value := some r, asPct := true
      , status := Status.warn, comment := "Okay ROE." }
    else
      { name := "ROE", condition := "ROE ≥ 15%", value := some r, asPct := true
      , status := Status.fail, comment := "Low ROE for quality growth." }

/-- Fisher rule: gross-margin tiers (lines 1133-1161). -/
def fisher_rule_gross (gm : Val) : RuleEval :=
  match gm with
  | none =>
    { name := "Gross margin", condition := "Gross margin ≥ 40%", value := none, asPct := true
    , status := Status.na, comment := "Margin data missing." }
  | some g =>
    if 0.40 ≤ g then
      { name := "Gross margin", condition := "Gross margin ≥ 40%", value := some g, asPct := true
      , status := Status.pass, comment := "Indicates product strength." }
    else if 0.30 ≤ g then
      { name := "Gross margin", condition := "Gross margin ≥ 40%", value := some g, asPct := true
      , status := Status.warn, comment := "Okay margin." }
    else
      { name := "Gross margin", condition := "Gross margin ≥ 40%", value := some g, asPct := true
      , status := Status.fail, comment := "Low margin for quality growth." }

/-- Fisher rule: operating-margin tiers (lines 1163-1193). -/
def fisher_rule_op (om : Val) : RuleEval :=
  match om with
  | none =>
    { name := "Operating margin", condition := "Operating margin ≥ 15%", value := none
    , asPct := true, status := Status.na, comment := "Operating margin missing." }
  | some o =>
    if 0.20 ≤ o then
      { name := "Operating margin", condition := "Operating margin ≥ 15%", value := some o
      , asPct := true, status := Status.pass, comment := "Strong operating profitability." }
    else if 0.15 ≤ o then
      { name := "Operating margin", condition := "Operating margin ≥ 15%", value := some o
      , asPct := true, status := Status.pass, comment := "Healthy operating margin." }
    else if 0.10 ≤ o then
      { name := "Operating margin", condition := "Operating margin ≥ 15%", value := some o
      , asPct := true, status := Status.warn, comment := "Okay margin." }
    else
      { name := "Operating margin", condition := "Operating margin ≥ 15%", value := some o
      , asPct := true, status := Status.fail, comment := "Weak operating margin." }

/-- Fisher rule: leverage tiers (lines 1195-1215). -/
def fisher_rule_leverage (dte : Val) : RuleEval :=
  match dte with
  | none =>
    { name := "Leverage", condition := "Debt/Equity ≤ 0.5", value := none, asPct := false
    , status := Status.na, comment := "Leverage data missing." }
  | some d =>
    if d ≤ 0.5 then
      { name := "Leverage", condition := "Debt/Equity ≤ 0.5", value := some d, asPct := false
      , status := Status.pass, comment := "Conservative balance sheet." }
    else if d ≤ 1.0 then
      { name := "Leverage", condition := "Debt/Equity ≤ 0.5", value := some d, asPct := false
      , status := Status.warn, comment := "Moderate leverage." }
    else
      { name := "Leverage", condition := "Debt/Equity ≤ 0.5", value := some d, asPct := false
      , status := Status.fail, comment := "High leverage for quality growth." }

/-- Embedding of `fisher_rules` (lines 1067-1218). -/
def fisher_rules (m : Metrics) : Checklist :=
  let rules := [fisher_rule_growth m.revenue_growth, fisher_rule_roe m.roe,
                fisher_rule_gross m.gross_margin, fisher_rule_op m.op_margin,
                fisher_rule_leverage m.debt_to_equity]
  { summary := summary_from_rules rules "Fisher-style growth", rules := rules }

/-- Specification-side reading of the TTM sum, written from the claim's
words for comparison with `ttm_sum`: sum the values that exist among the
four most-recent periods of the resolved row, never touching older
periods; null when the label is absent or none of those four values
exists. -/
def ttm_sum_spec (t : Table) (ls : List String) : Val :=
  if t.isEmpty then none
  else
    match coalesce_key (tableLabels t) ls with
    | none => none
    | some lab =>
      match rowFor t lab with
      | none => none
      | some vs =>
        let s := (vs.take 4).filterMap id
        if s.isEmpty then none else some s.sum

/-- Specification-side reading of the MRQ accessor, written from the
claim's words for comparison with `mrq_value`: exactly the single
most-recent period's value for the resolved label (null when that value
is itself missing). -/
def mrq_value_spec (t : Table) (ls : List String) : Val :=
  if t.isEmpty then none
  else
    match coalesce_key (tableLabels t) ls with
    | none => none
    | some lab =>
      match rowFor t lab with
      | none => none
      | some vs =>
        match vs with
        | [] => none
        | v :: _ => v

/-- Rule `i` of the checklist is not-applicable and carries a nonempty
explanatory comment. -/
def naAt (l : List RuleEval) (i : Nat) : Prop :=
  l[i]?.map RuleEval.status = some Status.na ∧ l[i]?.map RuleEval.comment ≠ some ""

/-- Quarterly income statement whose TTM pretax income is exactly zero
while a tax expense is reported. -/
def q_is_zero_pretax : Table :=
  [⟨"Pretax Income", [some 0]⟩, ⟨"Income Tax Expense", [some 5]⟩]

/-- Snapshot built on `q_is_zero_pretax`. -/
def raw_zero_pretax : RawSnapshot :=
  { q_is := q_is_zero_pretax, q_bs := [], q_cf := [], market_cap := none
  , info_enterprise_value := none, fx := 1 }

/-- Quarterly income statement with pretax income 10 and tax expense 2
(an ordinary 20% effective rate). -/
def q_is_taxed : Table :=
  [⟨"Pretax Income", [some 10]⟩, ⟨"Income Tax Expense", [some 2]⟩]

/-- Snapshot built on `q_is_taxed`. -/
def raw_taxed : RawSnapshot :=
  { q_is := q_is_taxed, q_bs := [], q_cf := [], market_cap := none
  , info_enterprise_value := none, fx := 1 }

/-- Quarterly balance sheet carrying only a cash row: no total-debt,
long-term-debt or short-term-debt label resolves in it. -/
def bs_no_debt : Table := [⟨"Cash", [some 3]⟩]

/-- Snapshot built on `bs_no_debt`. -/
def raw_no_debt : RawSnapshot :=
  { q_is := [], q_bs := bs_no_debt, q_cf := [], market_cap := none
  , info_enterprise_value := none, fx := 1 }

/-- A five-quarter revenue row whose most recent quarter is missing
(NaN): the four most-recent periods hold NaN, 1, 1, 1 and the fifth 1. -/
def tbl_gap : Table := [⟨"Revenue", [none, some 1, some 1, some 1, some 1]⟩]

/-- A two-quarter revenue row (fewer than four quarters available). -/
def tbl_two : Table := [⟨"Revenue", [some 2, some 3]⟩]

/-- Candidate labels for revenue, as in `fetch_core_financials`. -/
def revLabels : List String := ["Total Revenue", "Revenue", "TotalRevenue"]

/-- Candidate labels for total debt, as in `fetch_core_financials`. -/
def debtLabels : List String := ["Total Debt", "TotalDebt"]

/-- Balance sheet whose most recent total-debt value is missing while an
older quarter reports 7. -/
def bs_stale : Table := [⟨"Total Debt", [none, some 7]⟩]

/-- Balance sheet whose most recent total-debt value is present (5). -/
def bs_fresh : Table := [⟨"Total Debt", [some 5, some 7]⟩]

/-- An all-null canonical record, as produced for a ticker with no
resolvable statement data. -/
def finNone : Financials :=
  { Market_Cap := none, EV := none, Revenue_TTM := none, EBIT_TTM := none
  , Dep_TTM := none, EBITDA_TTM := none, CFO_TTM := none, CapEx_TTM := none
  , FCF_TTM := none, Debt_MRQ := none, Cash_MRQ := none, Equity_MRQ := none
  , NWC_MRQ := none, NetPPE_MRQ := none, Tax_Rate_est := none }

/-- Helper: coalescing over an empty index never resolves. -/
lemma coalesce_key_nil (cands : List String) : coalesce_key [] cands = none := by
  induction cands with
  | nil => rfl
  | cons c cs ih =>
    simp only [coalesce_key, List.findSome?_cons, List.find?_nil] at ih ⊢
    exact ih

/-- Helper: a table whose index resolves a label is nonempty. -/
lemma isEmpty_false_of_coalesce {t : Table} {ls : List String} {lab : String}
    (h : coalesce_key (tableLabels t) ls = some lab) : t.isEmpty = false := by
  cases t with
  | nil => rw [show tableLabels [] = [] from rfl, coalesce_key_nil] at h; cases h
  | cons r rs => rfl

/-- Helper: `ttm_sum` is null whenever no candidate label resolves. -/
lemma ttm_sum_of_coalesce_none {t : Table} {ls : List String}
    (h : coalesce_key (tableLabels t) ls = none) : ttm_sum t ls = none := by
  unfold ttm_sum
  rw [h]
  simp

/-- Helper: `mrq_value` is null whenever no candidate label resolves. -/
lemma mrq_value_of_coalesce_none {t : Table} {ls : List String}
    (h : coalesce_key (tableLabels t) ls = none) : mrq_value t ls = none := by
  unfold mrq_value
  rw [h]
  simp

/-- Helper: the value of `ttm_sum` once label and row are resolved. -/
lemma ttm_sum_resolved {t : Table} {ls : List String} {lab : String} {vs : List Val}
    (h1 : coalesce_key (tableLabels t) ls = some lab) (h2 : rowFor t lab = some vs) :
    ttm_sum t ls =
      if (vs.filterMap id).isEmpty then none else some (((vs.filterMap id).take 4).sum) := by
  unfold ttm_sum
  rw [isEmpty_false_of_coalesce h1, h1]
  simp only [h2]
  simp

/-- Helper: the value of `mrq_value` once label and row are resolved. -/
lemma mrq_value_resolved {t : Table} {ls : List String} {lab : String} {vs : List Val}
    (h1 : coalesce_key (tableLabels t) ls = some lab) (h2 : rowFor t lab = some vs) :
    mrq_value t ls =
      if (vs.filterMap id).isEmpty then none else (vs.filterMap id).head? := by
  unfold mrq_value
  rw [isEmpty_false_of_coalesce h1, h1]
  simp only [h2]
  simp

/-- C1 counterexample: on a quarterly income statement whose TTM pretax
income is exactly zero (with a tax expense present), `fetch_core_financials`
leaves `Tax_Rate_est` null — it does not resolve to the claimed 0.21
default, which is applied only downstream in `compute_roic_variants`. -/
theorem C1_counterexample :
    pretax_fc raw_zero_pretax = some 0 ∧
    (fetch_core_financials raw_zero_pretax).Tax_Rate_est = none := by
  have hp : pretax_fc raw_zero_pretax = some 0 := by
    have h1 : coalesce_key (tableLabels raw_zero_pretax.q_is)
        ["Income Before Tax", "Pretax Income", "Income Before Income Taxes"]
        = some "Pretax Income" := rfl
    have h2 : rowFor raw_zero_pretax.q_is "Pretax Income" = some [some 0] := rfl
    rw [pretax_fc, ttm_sum_resolved h1 h2]
    norm_num [List.filterMap_cons]
  refine ⟨hp, ?_⟩
  have ht : tax_fc raw_zero_pretax = some 5 := by
    have h1 : coalesce_key (tableLabels raw_zero_pretax.q_is)
        ["Income Tax Expense", "Provision For Income Taxes"]
        = some "Income Tax Expense" := rfl
    have h2 : rowFor raw_zero_pretax.q_is "Income Tax Expense" = some [some 5] := rfl
    rw [tax_fc, ttm_sum_resolved h1 h2]
    norm_num [List.filterMap_cons]
  show tax_rate_est raw_zero_pretax = none
  rw [tax_rate_est, hp, ht]
  norm_num

/-- C1 (amended): the tax-rate estimate of `fetch_core_financials` is
within [0, 0.35] whenever it is defined, and it is null (not 0.21) when
TTM pretax income is zero or undefined; the 0.21 statutory-rate default
is applied downstream, in the NOPAT step of `compute_roic_variants`,
whenever the estimate is null. -/
theorem C1_tax_rate_amended (raw : RawSnapshot) (fin : Financials) :
    (∀ r : ℚ, (fetch_core_financials raw).Tax_Rate_est = some r →
      0 ≤ r ∧ r ≤ 35/100) ∧
    (pretax_fc raw = some 0 ∨ pretax_fc raw = none →
      (fetch_core_financials raw).Tax_Rate_est = none) ∧
    (compute_roic_variants {fin with Tax_Rate_est := none}).roic
      = safe_div (fin.EBIT_TTM.map (fun e => e * (1 - 21/100))) (invested_capital fin) := by
  refine ⟨?_, ?_, rfl⟩
  · intro r h
    have h' : tax_rate_est raw = some r := h
    rw [tax_rate_est] at h'
    cases hp : pretax_fc raw with
    | none => rw [hp] at h'; cases h'
    | some p =>
      cases ht : tax_fc raw with
      | none => rw [hp, ht] at h'; cases h'
      | some tx =>
        rw [hp, ht] at h'
        have h'' : (if 0 < |p| then (some (max 0 (min (35/100) (tx / |p|))) : Val) else none)
            = some r := h'
        by_cases hb : 0 < |p|
        · rw [if_pos hb] at h''
          have hr : max 0 (min (35/100) (tx / |p|)) = r := Option.some.inj h''
          constructor
          · rw [← hr]; exact le_max_left _ _
          · rw [← hr]
            refine max_le (by norm_num) ?_
            exact min_le_left _ _
        · rw [if_neg hb] at h''; cases h''
  · intro h
    show tax_rate_est raw = none
    rw [tax_rate_est]
    cases h with
    | inl h0 =>
      rw [h0]
      cases ht : tax_fc raw with
      | none => rfl
      | some tx => norm_num
    | inr hn =>
      rw [hn]

/-- C1 witness: the amended statement evaluated at the concrete
snapshots — a 20% effective tax rate is kept and bounded, and a
zero-pretax snapshot yields a null estimate with the 0.21 default used
by the all-null record's NOPAT. -/
theorem C1_tax_rate_amended_witness :
    ((0:ℚ) ≤ 1/5 ∧ (1:ℚ)/5 ≤ 35/100) ∧
    (fetch_core_financials raw_zero_pretax).Tax_Rate_est = none ∧
    (compute_roic_variants {finNone with Tax_Rate_est := none}).roic
      = safe_div (finNone.EBIT_TTM.map (fun e => e * (1 - 21/100)))
          (invested_capital finNone) := by
  have hest : (fetch_core_financials raw_taxed).Tax_Rate_est = some (1/5) := by
    have hp : pretax_fc raw_taxed = some 10 := by
      have h1 : coalesce_key (tableLabels raw_taxed.q_is)
          ["Income Before Tax", "Pretax Income", "Income Before Income Taxes"]
          = some "Pretax Income" := rfl
      have h2 : rowFor raw_taxed.q_is "Pretax Income" = some [some 10] := rfl
      rw [pretax_fc, ttm_sum_resolved h1 h2]
      norm_num [List.filterMap_cons]
    have ht : tax_fc raw_taxed = some 2 := by
      have h1 : coalesce_key (tableLabels raw_taxed.q_is)
          ["Income Tax Expense", "Provision For Income Taxes"]
          = some "Income Tax Expense" := rfl
      have h2 : rowFor raw_taxed.q_is "Income Tax Expense" = some [some 2] := rfl
      rw [tax_fc, ttm_sum_resolved h1 h2]
      norm_num [List.filterMap_cons]
    show tax_rate_est raw_taxed = some (1/5)
    rw [tax_rate_est, hp, ht]
    norm_num
  have hzero : pretax_fc raw_zero_pretax = some 0 := by
    have h1 : coalesce_key (tableLabels raw_zero_pretax.q_is)
        ["Income Before Tax", "Pretax Income", "Income Before Income Taxes"]
        = some "Pretax Income" := rfl
    have h2 : rowFor raw_zero_pretax.q_is "Pretax Income" = some [some 0] := rfl
    rw [pretax_fc, ttm_sum_resolved h1 h2]
    norm_num [List.filterMap_cons]
  refine ⟨(C1_tax_rate_amended raw_taxed finNone).1 (1/5) hest,
          (C1_tax_rate_amended raw_zero_pretax finNone).2.1 (Or.inl hzero),
          (C1_tax_rate_amended raw_taxed finNone).2.2⟩

/-- C4 counterexample: in a quarterly balance sheet holding only a cash
row, so that no total-debt, long-term-debt or short-term-debt candidate
resolves, `fetch_core_financials` reports `Debt_MRQ = 0.0`, not null:
the long/short-term fallback coalesces both missing components to zero
and always produces a number. -/
theorem C4_counterexample :
    coalesce_key (tableLabels bs_no_debt) ["Total Debt", "TotalDebt"] = none ∧
    coalesce_key (tableLabels bs_no_debt)
      ["Long Term Debt", "LongTermDebt", "Long Term Debt Noncurrent"] = none ∧
    coalesce_key (tableLabels bs_no_debt)
      ["Short Long Term Debt", "ShortTermDebt", "Current Debt",
       "Current Portion Of Long Term Debt"] = none ∧
    (fetch_core_financials raw_no_debt).Debt_MRQ = some 0 := by
  refine ⟨rfl, rfl, rfl, ?_⟩
  show conv (total_debt_fc raw_no_debt) raw_no_debt.fx = some 0
  have h : total_debt_fc raw_no_debt = some (0 + 0) := rfl
  rw [h]
  show some ((0 + 0) * raw_no_debt.fx) = some 0
  norm_num

/-- C4 (amended): a canonical field resolved directly through
`_mrq_value`/`_ttm_sum` is null, never zero, when no candidate label
matches — but `Debt_MRQ` itself is the exception: when the total-debt
label is absent the long/short-term fallback coalesces each missing
component to zero, so `Debt_MRQ` is always a number (0.0 when nothing
resolves), not null. -/
theorem C4_missing_field_amended (t : Table) (ls : List String) (raw : RawSnapshot) :
    (coalesce_key (tableLabels t) ls = none →
      mrq_value t ls = none ∧ ttm_sum t ls = none) ∧
    (mrq_value raw.q_bs ["Total Debt", "TotalDebt"] = none →
      (fetch_core_financials raw).Debt_MRQ
        = some (((mrq_value raw.q_bs
                   ["Long Term Debt", "LongTermDebt", "Long Term Debt Noncurrent"]).getD 0
                 + (mrq_value raw.q_bs
                   ["Short Long Term Debt", "ShortTermDebt", "Current Debt",
                    "Current Portion Of Long Term Debt"]).getD 0) * raw.fx)) := by
  constructor
  · intro h
    exact ⟨mrq_value_of_coalesce_none h, ttm_sum_of_coalesce_none h⟩
  · intro h
    show conv (total_debt_fc raw) raw.fx = _
    rw [total_debt_fc, h]
    rfl

/-- C4 witness: the amended statement at the cash-only balance sheet —
the unresolved debt labels give null from the raw accessors, yet
`Debt_MRQ` comes out as the number (0 + 0) × fx. -/
theorem C4_missing_field_amended_witness :
    (mrq_value bs_no_debt ["Total Debt", "TotalDebt"] = none ∧
     ttm_sum bs_no_debt ["Total Debt", "TotalDebt"] = none) ∧
    (fetch_core_financials raw_no_debt).Debt_MRQ
      = some (((mrq_value raw_no_debt.q_bs
                 ["Long Term Debt", "LongTermDebt", "Long Term Debt Noncurrent"]).getD 0
               + (mrq_value raw_no_debt.q_bs
                 ["Short Long Term Debt", "ShortTermDebt", "Current Debt",
                  "Current Portion Of Long Term Debt"]).getD 0) * raw_no_debt.fx) := by
  refine ⟨(C4_missing_field_amended bs_no_debt ["Total Debt", "TotalDebt"] raw_no_debt).1 rfl,
          (C4_missing_field_amended bs_no_debt ["Total Debt", "TotalDebt"] raw_no_debt).2 rfl⟩

/-- C5 counterexample: on a five-quarter row whose most recent value is
missing, `_ttm_sum` sums 4 (reaching the fifth-most-recent period after
`dropna`), while the claim's reading — at most the four most-recent
periods — sums only the 3 values present among them. -/
theorem C5_counterexample :
    ttm_sum tbl_gap revLabels = some 4 ∧ ttm_sum_spec tbl_gap revLabels = some 3 := by
  have h1 : coalesce_key (tableLabels tbl_gap) revLabels = some "Revenue" := rfl
  have h2 : rowFor tbl_gap "Revenue" = some [none, some 1, some 1, some 1, some 1] := rfl
  constructor
  · rw [ttm_sum_resolved h1 h2]
    norm_num [List.filterMap_cons]
  · unfold ttm_sum_spec
    rw [isEmpty_false_of_coalesce h1, h1]
    simp only [h2]
    norm_num [List.filterMap_cons]

/-- C5 (amended): `_ttm_sum` sums at most four values — the four
most-recent non-null values of the resolved row, which coincide with the
four most-recent periods only when no earlier value is missing; with
fewer than four non-null values it sums exactly those; it is null when
no candidate label resolves or the row is entirely null. -/
theorem C5_ttm_amended (t : Table) (ls : List String) :
    (coalesce_key (tableLabels t) ls = none → ttm_sum t ls = none) ∧
    (∀ lab vs, coalesce_key (tableLabels t) ls = some lab → rowFor t lab = some vs →
      (vs.filterMap id = [] → ttm_sum t ls = none) ∧
      (vs.filterMap id ≠ [] →
        ttm_sum t ls = some (((vs.filterMap id).take 4).sum) ∧
        ((vs.filterMap id).length ≤ 4 → ttm_sum t ls = some ((vs.filterMap id).sum)))) := by
  constructor
  · exact ttm_sum_of_coalesce_none
  · intro lab vs h1 h2
    rw [ttm_sum_resolved h1 h2]
    constructor
    · intro hnil
      rw [hnil]
      rfl
    · intro hne
      have hie : (vs.filterMap id).isEmpty = false := by
        cases hfm : vs.filterMap id with
        | nil => exact absurd hfm hne
        | cons a l => rfl
      rw [hie]
      refine ⟨by simp, ?_⟩
      intro hlen
      rw [List.take_of_length_le hlen]
      simp

/-- C5 witness: the amended statement at concrete tables — an unmatched
label is null, the gapped row sums its four most-recent non-null values,
and a two-quarter row sums just its two values. -/
theorem C5_ttm_amended_witness :
    ttm_sum tbl_gap ["Gross Profit"] = none ∧
    ttm_sum tbl_gap revLabels
      = some ((([none, some 1, some 1, some 1, some 1] : List Val).filterMap id).take 4).sum ∧
    ttm_sum tbl_two revLabels
      = some (([some 2, some 3] : List Val).filterMap id).sum := by
  refine ⟨(C5_ttm_amended tbl_gap ["Gross Profit"]).1 rfl, ?_, ?_⟩
  · exact (((C5_ttm_amended tbl_gap revLabels).2 "Revenue"
      [none, some 1, some 1, some 1, some 1] rfl rfl).2 (by decide)).1
  · exact (((C5_ttm_amended tbl_two revLabels).2 "Revenue"
      [some 2, some 3] rfl rfl).2 (by decide)).2 (by decide)

/-- C6 counterexample: on a balance-sheet row whose most recent value is
missing while an older quarter reports 7, `_mrq_value` returns 7 — the
older quarter's value, because `dropna` runs before `iloc[0]` — whereas
the single most-recent period's value (the claim's reading) is null. -/
theorem C6_counterexample :
    mrq_value bs_stale debtLabels = some 7 ∧ mrq_value_spec bs_stale debtLabels = none := by
  have h1 : coalesce_key (tableLabels bs_stale) debtLabels = some "Total Debt" := rfl
  have h2 : rowFor bs_stale "Total Debt" = some [none, some 7] := rfl
  constructor
  · rw [mrq_value_resolved h1 h2]
    rfl
  · rfl

/-- C6 (amended): once a candidate label resolves, `_mrq_value` returns
the most recent non-null value of the row (null only when every value is
null); this equals the single most-recent period's value exactly when
that value is present. -/
theorem C6_mrq_amended (t : Table) (ls : List String) (lab : String) (vs : List Val)
    (h1 : coalesce_key (tableLabels t) ls = some lab) (h2 : rowFor t lab = some vs) :
    mrq_value t ls = (vs.filterMap id).head? ∧
    (∀ x : ℚ, vs.head? = some (some x) → mrq_value t ls = some x) := by
  have hmain : mrq_value t ls = (vs.filterMap id).head? := by
    rw [mrq_value_resolved h1 h2]
    cases hfm : vs.filterMap id with
    | nil => rfl
    | cons a l => rfl
  refine ⟨hmain, ?_⟩
  intro x hx
  cases vs with
  | nil => cases hx
  | cons v rest =>
    have hv : v = some x := by
      have := List.head?_cons (a := v) (l := rest) ▸ hx
      exact Option.some.inj this
    rw [hmain, hv]
    rfl

/-- C6 witness: the amended statement at concrete rows — a present most
recent value (5) is returned as-is, and the stale row returns the head
of its non-null values. -/
theorem C6_mrq_amended_witness :
    mrq_value bs_fresh debtLabels = some 5 ∧
    mrq_value bs_stale debtLabels = (([none, some (7:ℚ)] : List Val).filterMap id).head? := by
  refine ⟨(C6_mrq_amended bs_fresh debtLabels "Total Debt" [some 5, some 7] rfl rfl).2 5 rfl,
          (C6_mrq_amended bs_stale debtLabels "Total Debt" [none, some 7] rfl rfl).1⟩

/-- C7: Enterprise Value equals Market_Cap + Debt − Cash with missing
Debt or Cash coalesced to zero exactly when Market_Cap is present; when
Market_Cap is unavailable, EV falls back to the provider's directly
reported enterprise-value field (null when that too is absent). -/
theorem C7_enterprise_value (raw : RawSnapshot) :
    (fetch_core_financials raw).EV =
      match raw.market_cap with
      | some m =>
        some (m + ((fetch_core_financials raw).Debt_MRQ).getD 0
                - ((fetch_core_financials raw).Cash_MRQ).getD 0)
      | none => raw.info_enterprise_value := by
  cases h : raw.market_cap with
  | none => show ev_val raw = _; rw [ev_val, h]
  | some m => show ev_val raw = _; rw [ev_val, h]; rfl

/-- C2: `compute_roic_variants` is a total function whose ROIC entry is
NOPAT / Invested Capital through the shared safe-division policy, with
NOPAT = EBIT_TTM × (1 − tax-rate estimate) where a null estimate
defaults to 0.21, and Invested Capital = Debt + Equity − Cash (null when
any of the three is null).  The invested-capital base and the returned
ratio set are spec-modelled, the source file being truncated there. -/
theorem C2_roic_formula (fin : Financials) :
    (compute_roic_variants fin).roic =
      safe_div
        (fin.EBIT_TTM.map (fun e => e * (1 - fin.Tax_Rate_est.getD (21/100))))
        (match fin.Debt_MRQ, fin.Equity_MRQ, fin.Cash_MRQ with
         | some d, some e, some c => some (d + e - c)
         | _, _, _ => none) := rfl

/-- C3: the shared safe-division helpers return null — never an
exception, never infinity — for a zero or null denominator and for a
null numerator; the two `_safe_div` variants agree; and every ratio of
`compute_common_multiples` and every derived division of
`compute_metrics` (including the P/E fallback and the earnings yield)
follows the same policy. -/
theorem C3_safe_division_policy (n d : Val) (fin : Financials) (i : InfoSnap) :
    safe_div n none = none ∧
    safe_div n (some 0) = none ∧
    safe_div none d = none ∧
    core_safe_div n d = safe_div n d ∧
    (compute_common_multiples {fin with EBITDA_TTM := none}).ev_ebitda = none ∧
    (compute_common_multiples {fin with EBITDA_TTM := some 0}).ev_ebitda = none ∧
    (compute_common_multiples {fin with EBIT_TTM := none}).ev_ebit = none ∧
    (compute_common_multiples {fin with EBIT_TTM := some 0}).ev_ebit = none ∧
    (compute_common_multiples {fin with Revenue_TTM := none}).ev_sales = none ∧
    (compute_common_multiples {fin with Revenue_TTM := some 0}).ev_sales = none ∧
    (compute_common_multiples {fin with EV := none}).ebit_ev = none ∧
    (compute_common_multiples {fin with EV := some 0}).ebit_ev = none ∧
    (compute_common_multiples {fin with Market_Cap := none}).fcf_yield_to_equity = none ∧
    (compute_common_multiples {fin with Market_Cap := some 0}).fcf_yield_to_equity = none ∧
    (compute_common_multiples {fin with FCF_TTM := none}).p_fcf = none ∧
    (compute_common_multiples {fin with FCF_TTM := some 0}).p_fcf = none ∧
    (compute_common_multiples {fin with EV := none}).ev_ebitda = none ∧
    (compute_common_multiples {fin with FCF_TTM := none}).fcf_yield_to_equity = none ∧
    (compute_metrics {i with ebitda := none}).ev_ebitda = none ∧
    (compute_metrics {i with ebitda := some 0}).ev_ebitda = none ∧
    (compute_metrics {i with totalRevenue := none}).ev_sales = none ∧
    (compute_metrics {i with totalRevenue := some 0}).ev_sales = none ∧
    (compute_metrics {i with enterpriseValue := none}).ev_ebitda = none ∧
    (compute_metrics {i with freeCashflow := none}).fcf_yield = none ∧
    (compute_metrics {i with marketCap := none, currentPrice := none,
                             historyLastClose := none}).fcf_yield = none ∧
    (compute_metrics {i with freeCashflow := none}).fcf_conversion = none ∧
    (compute_metrics {i with netIncomeToCommon := none, netIncome := none,
                             profit := none}).fcf_conversion = none ∧
    (compute_metrics {i with trailingPE := none, netIncomeToCommon := none,
                             netIncome := none, profit := none}).pe = none ∧
    (compute_metrics {i with trailingPE := none, netIncomeToCommon := none,
                             netIncome := none, profit := none}).earnings_yield = none ∧
    (compute_metrics {i with trailingPE := some 0}).earnings_yield = none := by
  refine ⟨rfl, by simp [safe_div], by cases d <;> simp [safe_div],
          by cases d <;> rfl,
          by simp [compute_common_multiples, safe_div],
          by simp [compute_common_multiples, safe_div],
          by simp [compute_common_multiples, safe_div],
          by simp [compute_common_multiples, safe_div],
          by simp [compute_common_multiples, safe_div],
          by simp [compute_common_multiples, safe_div],
          by simp [compute_common_multiples, safe_div],
          by simp [compute_common_multiples, safe_div],
          by simp [compute_common_multiples, safe_div],
          by simp [compute_common_multiples, safe_div],
          by simp [compute_common_multiples, safe_div],
          by simp [compute_common_multiples, safe_div],
          by cases h : fin.EBITDA_TTM <;> simp [compute_common_multiples, safe_div, h],
          by cases h : fin.Market_Cap <;> simp [compute_common_multiples, safe_div, h],
          by simp [compute_metrics, truthy],
          by simp [compute_metrics, truthy],
          by simp [compute_metrics, truthy],
          by simp [compute_metrics, truthy],
          by cases h : i.ebitda <;> simp [compute_metrics, truthy, core_safe_div, h],
          by simp [compute_metrics, truthy],
          by simp [compute_metrics, truthy, market_cap_val, price_val],
          by simp [compute_metrics, truthy],
          by simp [compute_metrics, truthy, net_income_val],
          by simp [compute_metrics, pe_val, truthy, net_income_val],
          by simp [compute_metrics, pe_val, truthy, net_income_val],
          by simp [compute_metrics, pe_val]⟩

/-- C9: the PEG of `compute_metrics` is P/E divided by the growth rate
as a percentage (decimal growth × 100), the growth being earnings growth
when available and otherwise revenue growth; it is null whenever the
selected growth is null or not strictly positive, regardless of the P/E,
and null when the P/E is null. -/
theorem C9_peg_formula (i : InfoSnap) :
    (compute_metrics i).peg =
      (match pe_val i, i.earningsGrowth.or i.revenueGrowth with
       | some p, some g => if 0 < g then some (p / (g * 100)) else none
       | _, _ => none) ∧
    (∀ g p : ℚ,
      (compute_metrics {i with earningsGrowth := some g, trailingPE := some p}).peg
        = if 0 < g then some (p / (g * 100)) else none) :=
  ⟨rfl, fun _ _ => rfl⟩

/-- C10: `compute_metrics` rescales a reported `debtToEquity` above 10
by 1/100 (treating it as percent-style) and keeps values at most 10
unchanged; an absent value stays null. -/
theorem C10_dte_rescale (i : InfoSnap) (x : ℚ) :
    (compute_metrics {i with debtToEquity := some x}).debt_to_equity
      = (if 10 < x then some (x / 100) else some x) ∧
    (compute_metrics {i with debtToEquity := none}).debt_to_equity = none :=
  ⟨rfl, rfl⟩

/-- C8: rule evaluation is total (each profile always yields its full
fixed-length checklist — nothing raises on missing data), and for every
rule of each of the eight investor profiles, a null metric field read by
the rule makes its status "na" with a nonempty explanatory comment —
never pass, warn or fail — whatever the remaining metrics hold. -/
theorem C8_na_policy (m : Metrics) :
    ((graham_rules m).rules.length = 5 ∧ (buffett_rules m).rules.length = 6 ∧
     (lynch_rules m).rules.length = 4 ∧ (greenblatt_rules m).rules.length = 3 ∧
     (burry_rules m).rules.length = 3 ∧ (smith_rules m).rules.length = 6 ∧
     (dividend_rules m).rules.length = 5 ∧ (fisher_rules m).rules.length = 5) ∧
    naAt ((graham_rules {m with pe := none}).rules) 0 ∧
    naAt ((graham_rules {m with pb := none}).rules) 1 ∧
    naAt ((graham_rules {m with pe := none}).rules) 2 ∧
    naAt ((graham_rules {m with pb := none}).rules) 2 ∧
    naAt ((graham_rules {m with debt_to_equity := none}).rules) 3 ∧
    naAt ((graham_rules {m with current_rt := none}).rules) 4 ∧
    naAt ((buffett_rules {m with roe := none}).rules) 0 ∧
    naAt ((buffett_rules {m with gross_margin := none}).rules) 1 ∧
    naAt ((buffett_rules {m with op_margin := none}).rules) 2 ∧
    naAt ((buffett_rules {m with fcf_conversion := none}).rules) 3 ∧
    naAt ((buffett_rules {m with debt_to_equity := none}).rules) 4 ∧
    naAt ((buffett_rules {m with pe := none}).rules) 5 ∧
    naAt ((lynch_rules {m with earnings_growth := none, revenue_growth := none}).rules) 0 ∧
    naAt ((lynch_rules {m with peg := none}).rules) 1 ∧
    naAt ((lynch_rules {m with pe := none}).rules) 2 ∧
    naAt ((lynch_rules {m with debt_to_equity := none}).rules) 3 ∧
    naAt ((greenblatt_rules {m with earnings_yield := none}).rules) 0 ∧
    naAt ((greenblatt_rules {m with roe := none}).rules) 1 ∧
    naAt ((greenblatt_rules {m with ev_ebitda := none}).rules) 2 ∧
    naAt ((burry_rules {m with fcf_yield := none}).rules) 0 ∧
    naAt ((burry_rules {m with ev_ebitda := none, pe := none}).rules) 1 ∧
    naAt ((burry_rules {m with debt_to_equity := none}).rules) 2 ∧
    naAt ((smith_rules {m with roe := none}).rules) 0 ∧
    naAt ((smith_rules {m with gross_margin := none}).rules) 1 ∧
    naAt ((smith_rules {m with net_margin := none}).rules) 2 ∧
    naAt ((smith_rules {m with revenue_growth := none}).rules) 3 ∧
    naAt ((smith_rules {m with debt_to_equity := none}).rules) 4 ∧
    naAt ((smith_rules {m with pe := none}).rules) 5 ∧
    naAt ((dividend_rules {m with dividend_yield := none}).rules) 0 ∧
    naAt ((dividend_rules {m with payout_rt := none}).rules) 1 ∧
    naAt ((dividend_rules {m with fcf_yield := none}).rules) 2 ∧
    naAt ((dividend_rules {m with debt_to_equity := none}).rules) 3 ∧
    naAt ((dividend_rules {m with earnings_growth := none}).rules) 4 ∧
    naAt ((fisher_rules {m with revenue_growth := none}).rules) 0 ∧
    naAt ((fisher_rules {m with roe := none}).rules) 1 ∧
    naAt ((fisher_rules {m with gross_margin := none}).rules) 2 ∧
    naAt ((fisher_rules {m with op_margin := none}).rules) 3 ∧
    naAt ((fisher_rules {m with debt_to_equity := none}).rules) 4 :=
  ⟨⟨rfl, rfl, rfl, rfl, rfl, rfl, rfl, rfl⟩,
   by simp [naAt, graham_rules, graham_rule_pe],
   by simp [naAt, graham_rules, graham_rule_pb],
   by simp [naAt, graham_rules, graham_rule_product],
   by simp [naAt, graham_rules, graham_rule_product],
   by simp [naAt, graham_rules, graham_rule_leverage],
   by simp [naAt, graham_rules, graham_rule_liquidity],
   by simp [naAt, buffett_rules, buffett_rule_roe],
   by simp [naAt, buffett_rules, buffett_rule_gross],
   by simp [naAt, buffett_rules, buffett_rule_op],
   by simp [naAt, buffett_rules, buffett_rule_conversion],
   by simp [naAt, buffett_rules, buffett_rule_leverage],
   by simp [naAt, buffett_rules, buffett_rule_pe],
   by simp [naAt, lynch_rules, lynch_rule_growth],
   by simp [naAt, lynch_rules, lynch_rule_peg],
   by simp [naAt, lynch_rules, lynch_rule_pe],
   by simp [naAt, lynch_rules, lynch_rule_leverage],
   by simp [naAt, greenblatt_rules, greenblatt_rule_ey],
   by simp [naAt, greenblatt_rules, greenblatt_rule_roe],
   by simp [naAt, greenblatt_rules, greenblatt_rule_ev_ebitda],
   by simp [naAt, burry_rules, burry_rule_fcf],
   by simp [naAt, burry_rules, burry_rule_multiples],
   by simp [naAt, burry_rules, burry_rule_leverage],
   by simp [naAt, smith_rules, smith_rule_roe],
   by simp [naAt, smith_rules, smith_rule_gross],
   by simp [naAt, smith_rules, smith_rule_net],
   by simp [naAt, smith_rules, smith_rule_growth],
   by simp [naAt, smith_rules, smith_rule_leverage],
   by simp [naAt, smith_rules, smith_rule_pe],
   by simp [naAt, dividend_rules, dividend_rule_yield],
   by simp [naAt, dividend_rules, dividend_rule_payout],
   by simp [naAt, dividend_rules, dividend_rule_fcf],
   by simp [naAt, dividend_rules, dividend_rule_leverage],
   by simp [naAt, dividend_rules, dividend_rule_growth],
   by simp [naAt, fisher_rules, fisher_rule_growth],
   by simp [naAt, fisher_rules, fisher_rule_roe],
   by simp [naAt, fisher_rules, fisher_rule_gross],
   by simp [naAt, fisher_rules, fisher_rule_op],
   by simp [naAt, fisher_rules, fisher_rule_leverage]⟩

end Superinvestor
